import Mathlib

/-!
Verification of the research-loop controller in `src/agent.ts`.

The controller (`getResponse`) keeps a FIFO queue of open questions (`gaps`),
an accumulated context log, a bad-attempt log, a question registry
(`allQuestions`) and a keyword registry (`allKeywords`).  Each step it pops a
question, builds a prompt (`getPrompt`), asks an external decision oracle for a
structured action constrained by a response schema (`getSchema`), and
dispatches on the action tag: `answer`, `reflect`, `search`, `deep dive`.

External collaborators (the Gemini decision oracle, the answer evaluator, the
query deduplicator, the query rewriter, the search provider and the page
reader) are modelled as an explicit environment of functions; fallible
collaborators return `Except`.  The loop is modelled with explicit fuel, and
the run additionally records the external calls made and a per-step trace so
that observable behaviour (number of oracle calls, selected question, prompt
and schema handed to the oracle) can be stated.
-/

namespace DeepResearch

/-- A reference object `{title, url}` attached to an answer action. -/
structure Reference where
  title : String
  url : String
deriving Repr, DecidableEq

/-- The structured action returned by the decision oracle, mirroring the JSON
object parsed in `getResponse` (`action.action`, `action.searchQuery`,
`action.URLTargets`, `action.answer`, `action.references`,
`action.questionsToAnswer`, `action.reasoning`).  Fields other than `action`
and `reasoning` are optional in the response schema. -/
structure ActionJson where
  action : String
  reasoning : String
  searchQuery : Option String
  URLTargets : Option (List String)
  answer : Option String
  references : Option (List Reference)
  questionsToAnswer : Option (List String)
deriving Repr, DecidableEq

/-- One search hit as kept by the controller (`{title, url, description}`). -/
structure SearchResult where
  title : String
  url : String
  description : String
deriving Repr, DecidableEq

/-- Token usage reported by the page reader (`usage.tokens`). -/
structure ReadUsage where
  tokens : Nat
deriving Repr, DecidableEq

/-- Payload of the page reader response (`data.content`, `data.usage`).
Modelled from the spec: `readUrl` lives in `tools/read`, which is not part of
the sources; its response shape `{content, usage:{tokens}}` follows the
Page Reader interface of the spec and the field accesses in `agent.ts`. -/
structure ReadData where
  content : String
  usage : ReadUsage
deriving Repr, DecidableEq

/-- The page reader response; `agent.ts` reads `r.result.data.usage.tokens`. -/
structure ReadResponse where
  data : ReadData
deriving Repr, DecidableEq

/-- Result payload attached to a context entry by the search branch
(`result: searchResults`) or the deep-dive branch (`result: urlResults`). -/
inductive StepExtraResult where
  | searchResults (rs : List (String × List SearchResult))
  | urlResults (rs : List (String × ReadResponse))
deriving Repr, DecidableEq

/-- One context entry `{step, question, ...action, result?}` as pushed onto
`context` (and migrated to `badContext`) by `getResponse`. -/
structure ContextEntry where
  step : Nat
  question : String
  action : ActionJson
  result : Option StepExtraResult
deriving Repr, DecidableEq

/-- The schema fragment for the `questionsToAnswer` field, only present when
reflecting is allowed. -/
structure QuestionsToAnswerSchema where
  itemDescription : String
  description : String
  maxItems : Nat
deriving Repr, DecidableEq

/-- The response schema handed to the oracle, mirroring `getSchema` in
`agent.ts`: the `action` enum, the optional `questionsToAnswer` fragment, the
per-field descriptions and the list of required fields. -/
structure ResponseSchema where
  actionEnum : List String
  actionDescription : String
  questionsToAnswer : Option QuestionsToAnswerSchema
  searchQueryDescription : String
  urlTargetsDescription : String
  answerDescription : String
  referencesDescription : String
  reasoningDescription : String
  required : List String
deriving Repr, DecidableEq

/-- Embedding of `getSchema(allowReflect)`:  with `allowReflect` the action
enum additionally offers `"reflect"` and the `questionsToAnswer` field is
present (capped at 2 items); without it the enum is only
`["search", "deep dive", "answer"]` and `questionsToAnswer` is `undefined`. -/
def getSchema (allowReflect : Bool) : ResponseSchema :=
  { actionEnum :=
      if allowReflect then ["search", "deep dive", "answer", "reflect"]
      else ["search", "deep dive", "answer"],
    actionDescription := "Must match exactly one action type",
    questionsToAnswer :=
      if allowReflect then
        some { itemDescription := "each question must be a single line, concise and clear. not composite or compound, less than 20 words.",
               description := "Only required when choosing \x27reflect\x27 action, list of most important questions to answer to fill the knowledge gaps.",
               maxItems := 2 }
      else none,
    searchQueryDescription := "Only required when choosing \x27search\x27 action, must be a short, keyword-based query that BM25, tf-idf based search engines can understand.",
    urlTargetsDescription := "Only required when choosing \x27deep dive\x27 action, must be an array of URLs",
    answerDescription := "Only required when choosing \x27answer\x27 action, must be the final answer in natural language",
    referencesDescription := "Only required when choosing \x27answer\x27 action, must be an array of references",
    reasoningDescription := "Explain why choose this action?",
    required := ["action", "reasoning"] }

/-- Plain rendering of a reference, standing in for its `JSON.stringify`
form; the exact layout of the serialised text is not load-bearing. -/
def stringifyReference (r : Reference) : String :=
  "\x7b \x22title\x22: \x22" ++ r.title ++ "\x22, \x22url\x22: \x22" ++ r.url ++ "\x22 \x7d"

/-- Rendering of an optional string field of an action object. -/
def stringifyOptionalString (name : String) (v : Option String) : String :=
  match v with
  | none => ""
  | some s => ", \x22" ++ name ++ "\x22: \x22" ++ s ++ "\x22"

/-- Rendering of an optional string-list field of an action object. -/
def stringifyOptionalList (name : String) (v : Option (List String)) : String :=
  match v with
  | none => ""
  | some xs => ", \x22" ++ name ++ "\x22: [" ++ String.intercalate ", " xs ++ "]"

/-- Rendering of an action object, standing in for `JSON.stringify`. -/
def stringifyActionJson (a : ActionJson) : String :=
  "\x7b \x22action\x22: \x22" ++ a.action ++ "\x22, \x22reasoning\x22: \x22" ++ a.reasoning ++ "\x22"
    ++ stringifyOptionalString "searchQuery" a.searchQuery
    ++ stringifyOptionalList "URLTargets" a.URLTargets
    ++ stringifyOptionalString "answer" a.answer
    ++ (match a.references with
        | none => ""
        | some rs => ", \x22references\x22: [" ++ String.intercalate ", " (rs.map stringifyReference) ++ "]")
    ++ stringifyOptionalList "questionsToAnswer" a.questionsToAnswer
    ++ " \x7d"

/-- Rendering of one context entry, standing in for `JSON.stringify`. -/
def stringifyEntry (e : ContextEntry) : String :=
  "\x7b \x22step\x22: " ++ toString e.step ++ ", \x22question\x22: \x22" ++ e.question
    ++ "\x22, \x22action\x22: " ++ stringifyActionJson e.action
    ++ (match e.result with
        | none => ""
        | some (.searchResults rs) => ", \x22result\x22: (" ++ toString rs.length ++ " search results)"
        | some (.urlResults rs) => ", \x22result\x22: (" ++ toString rs.length ++ " url results)")
    ++ " \x7d"

/-- Rendering of a context-entry list, standing in for
`JSON.stringify(entries, null, 2)`. -/
def stringifyEntries (es : List ContextEntry) : String :=
  "[" ++ String.intercalate ",\n" (es.map stringifyEntry) ++ "]"

/-- The `badContextIntro` block of `getPrompt`: present exactly when a
non-empty bad-context list is passed; otherwise the empty string. -/
def badContextIntroOf (badContext : Option (List ContextEntry)) : String :=
  match badContext with
  | none => ""
  | some bc =>
    if bc.length = 0 then ""
    else
      "Your last unsuccessful answer contains these previous actions and knowledge:\n    "
        ++ stringifyEntries bc
        ++ "\n    \n    Learn to avoid these mistakes and think of a new approach, from a different angle, e.g. search for different keywords, read different URLs, or ask different questions.\n    "

/-- The `contextIntro` block of `getPrompt`: present exactly when the context
log is non-empty; otherwise the empty string. -/
def contextIntroOf (context : List ContextEntry) : String :=
  if context.length = 0 then ""
  else
    "Your current context contains these previous actions and knowledge:\n    "
      ++ stringifyEntries context
      ++ "\n    "

/-- The `actionsDescription` block of `getPrompt`, including the reflect
section and the already-asked-questions list when `allowReflect` is set. -/
def actionsDescriptionOf (question : String) (allowReflect : Bool) (allQuestions : List String) : String :=
  let base :=
    "\nUsing your training data and prior lessons learned, answer the following question with absolute certainty:\n\n"
      ++ question
      ++ "\n\nWhen uncertain or needing additional information, select one of these actions:\n\n**search**:\n- Query external sources using a public search engine\n- Focus on solving one specific aspect of the question\n- Only give keywords search query, not full sentences\n\n**deep dive**:\n- When you have enough search result and want to deep dive into specific URLs\n- It allows you access the full content behind specific URLs\n\n**answer**:\n- Provide final response only when 100% certain\n- Responses must be definitive (no ambiguity, uncertainty, or disclaimers)\n"
      ++ (if allowReflect then "- If doubts remain, use \x22reflect\x22 instead" else "")
  if allowReflect then
    base
      ++ "\n\n**reflect**:\n- Perform critical analysis through hypothetical scenarios or systematic breakdowns\n- Identify knowledge gaps and formulate essential clarifying questions\n- Questions must be:\n  - Original (not variations of existing questions)\n  - Focused on single concepts\n  - Under 20 words\n  - Non-compound/non-complex\n"
      ++ (if allQuestions.length ≠ 0 then
            "Existing questions you have asked, make sure to not repeat them:\n " ++ String.intercalate "\n" allQuestions
          else "")
      ++ "\n  "
  else base

/-- Embedding of `getPrompt(question, context, allQuestions, allowReflect,
badContext)`: the assembled prompt string handed to the decision oracle. -/
def getPrompt (question : String) (context : List ContextEntry) (allQuestions : List String)
    (allowReflect : Bool) (badContext : Option (List ContextEntry)) : String :=
  "You are an advanced AI research analyst specializing in multi-step reasoning."
    ++ contextIntroOf context
    ++ badContextIntroOf badContext
    ++ actionsDescriptionOf question allowReflect allQuestions
    ++ "\n\nRespond exclusively in valid JSON format matching exact JSON schema.\n\nCritical Requirements:\n- Include ONLY ONE action type\n- Never add unsupported keys\n- Exclude all non-JSON text, markdown, or explanations\n- Maintain strict JSON syntax"

/-- The external collaborators of the controller.  `decide` models one
`model.generateContent` round trip (prompt and response schema in, parsed
action and `usageMetadata.totalTokenCount` out).  `evaluateAnswer`,
`dedupQueries` and `rewriteQuery` live in `tools/` outside the sources.
Modelled from the spec: the Answer Evaluator surfaces call failures as an
error (`Except.error`), never silently accepting; the Query Deduplicator and
the query rewriter degrade internally on failure and so are total; the search
provider and the page reader can fail (`CollaboratorUnavailable`). -/
structure Env where
  decide : String → ResponseSchema → ActionJson × Nat
  evaluateAnswer : String → Option String → Except String Bool
  dedupQueries : List String → List String → List String
  rewriteQuery : String → List String
  search : String → Except String (List SearchResult)
  readUrl : String → Except String ReadResponse

/-- The mutable locals of `getResponse`: token counter, context log, step
counter, gap queue, question registry, keyword registry, bad-attempt log. -/
structure AgentState where
  totalTokens : Nat
  context : List ContextEntry
  step : Nat
  gaps : List String
  allQuestions : List String
  allKeywords : List String
  badContext : List ContextEntry
deriving Repr, DecidableEq

/-- Initial state of `getResponse(question, tokenBudget)`: zero tokens, empty
logs, the gap queue and the question registry both start as `[question]`. -/
def initialState (question : String) : AgentState :=
  { totalTokens := 0, context := [], step := 0, gaps := [question],
    allQuestions := [question], allKeywords := [], badContext := [] }

/-- Line 242 of `agent.ts`: `allowReflect = gaps.length <= 1`, computed before
the pop. -/
def allowReflectOf (gaps : List String) : Bool :=
  gaps.length ≤ 1

/-- Line 243 of `agent.ts`:
`currentQuestion = gaps.length > 0 ? gaps.shift()! : question`; returns the
selected question and the queue remainder. -/
def selectCurrent (gaps : List String) (question : String) : String × List String :=
  match gaps with
  | [] => (question, [])
  | g :: rest => (g, rest)

/-- The prompt built for the oracle on a step (line 244 of `agent.ts`): note
the call site passes only four arguments, so `badContext` is left at its
default (`undefined`/`none`). -/
def stepPrompt (question : String) (s : AgentState) : String :=
  getPrompt (selectCurrent s.gaps question).1 s.context s.allQuestions (allowReflectOf s.gaps) none

/-- An external call made during a step, for stating observable behaviour. -/
inductive CallEvent where
  | oracleCall (prompt : String)
  | evalCall (question : String)
  | dedupCall (candidates : List String) (known : List String)
  | rewriteCall (q : String)
  | searchCall (q : String)
  | readCall (url : String)
deriving Repr, DecidableEq

/-- How one loop iteration ends: return the accepted answer (`return action`),
continue with an updated state, or propagate an uncaught exception. -/
inductive StepOut where
  | done (a : ActionJson)
  | next (s : AgentState)
  | crashed (e : String)
deriving Repr, DecidableEq

/-- Observable data of one step: counter, selected question, queue remainder
after the pop, and the prompt and schema handed to the decision oracle. -/
structure StepRecord where
  stepNo : Nat
  currentQuestion : String
  gapsAfterPop : List String
  prompt : String
  schema : ResponseSchema
deriving Repr, DecidableEq

/-- Full result of one loop iteration. -/
structure StepResult where
  out : StepOut
  calls : List CallEvent
  record : StepRecord

/-- Accumulator of the sequential search sub-loop of the search branch. -/
structure SearchLoopOut where
  allKeywords : List String
  searchResults : List (String × List SearchResult)
  ok : Bool
  calls : List CallEvent

/-- The `for (const query of keywordsQueries)` loop of the search branch: each
provider call that succeeds appends its minimal results and records the query
in the keyword registry; a throwing call aborts the loop (the exception is
caught at the surrounding `try`), keeping the registry entries already pushed
but discarding the collected results. -/
def runSearchQueries (env : Env) : List String → List String → List (String × List SearchResult) → SearchLoopOut
  | [], kws, acc => { allKeywords := kws, searchResults := acc, ok := true, calls := [] }
  | q :: rest, kws, acc =>
    match env.search q with
    | .error _ => { allKeywords := kws, searchResults := acc, ok := false, calls := [CallEvent.searchCall q] }
    | .ok results =>
      let minResults := results.map fun r => ({ title := r.title, url := r.url, description := r.description } : SearchResult)
      let out := runSearchQueries env rest (kws ++ [q]) (acc ++ [(q, minResults)])
      { allKeywords := out.allKeywords, searchResults := out.searchResults, ok := out.ok,
        calls := CallEvent.searchCall q :: out.calls }

/-- The `Promise.all` of the deep-dive branch over `readUrl`: the whole batch
resolves only if every fetch succeeds; any single rejection rejects the batch
and no per-URL results are delivered. -/
def readAll (env : Env) : List String → Except String (List (String × ReadResponse))
  | [] => .ok []
  | url :: rest =>
    match env.readUrl url with
    | .error e => .error e
    | .ok r =>
      match readAll env rest with
      | .error e => .error e
      | .ok rs => .ok ((url, r) :: rs)

/-- One iteration of the `while` loop of `getResponse`, from the `step++` to
the bottom of the loop body: select the question, call the oracle, then
dispatch on the action tag exactly as the sequential `if` blocks do. -/
def runStep (env : Env) (question : String) (s : AgentState) : StepResult :=
  let stepNo := s.step + 1
  let allowReflect := allowReflectOf s.gaps
  let sel := selectCurrent s.gaps question
  let currentQuestion := sel.1
  let gaps := sel.2
  let prompt := getPrompt currentQuestion s.context s.allQuestions allowReflect none
  let dec := env.decide prompt (getSchema allowReflect)
  let action := dec.1
  let totalTokens := s.totalTokens + dec.2
  let record : StepRecord :=
    { stepNo := stepNo, currentQuestion := currentQuestion, gapsAfterPop := gaps,
      prompt := prompt, schema := getSchema allowReflect }
  let plainNext : StepResult :=
    { out := .next { totalTokens := totalTokens, context := s.context, step := stepNo, gaps := gaps,
                     allQuestions := s.allQuestions, allKeywords := s.allKeywords, badContext := s.badContext },
      calls := [.oracleCall prompt], record := record }
  if action.action = "answer" then
    let context := s.context ++ [{ step := stepNo, question := currentQuestion, action := action, result := none }]
    if currentQuestion = question then
      match env.evaluateAnswer currentQuestion action.answer with
      | .error e =>
        { out := .crashed e, calls := [.oracleCall prompt, .evalCall currentQuestion], record := record }
      | .ok true =>
        { out := .done action, calls := [.oracleCall prompt, .evalCall currentQuestion], record := record }
      | .ok false =>
        { out := .next { totalTokens := totalTokens, context := [], step := stepNo, gaps := gaps,
                         allQuestions := s.allQuestions, allKeywords := s.allKeywords,
                         badContext := s.badContext ++ context },
          calls := [.oracleCall prompt, .evalCall currentQuestion], record := record }
    else
      { out := .next { totalTokens := totalTokens, context := context, step := stepNo, gaps := gaps,
                       allQuestions := s.allQuestions, allKeywords := s.allKeywords, badContext := s.badContext },
        calls := [.oracleCall prompt], record := record }
  else if action.action = "reflect" then
    match action.questionsToAnswer with
    | some qs =>
      let deduped :=
        if s.allQuestions.length ≠ 0 then
          (env.dedupQueries qs s.allQuestions, [CallEvent.dedupCall qs s.allQuestions])
        else (qs, [])
      let newGapQuestions := deduped.1
      { out := .next { totalTokens := totalTokens, context := s.context, step := stepNo,
                       gaps := gaps ++ newGapQuestions ++ [question],
                       allQuestions := s.allQuestions ++ newGapQuestions,
                       allKeywords := s.allKeywords, badContext := s.badContext },
        calls := .oracleCall prompt :: deduped.2, record := record }
    | none => plainNext
  else if action.action = "search" then
    match action.searchQuery with
    | some sq =>
      if sq = "" then plainNext
      else
        let keywordsQueries := env.rewriteQuery sq
        let deduped :=
          if s.allKeywords.length ≠ 0 then
            (env.dedupQueries keywordsQueries s.allKeywords, [CallEvent.dedupCall keywordsQueries s.allKeywords])
          else (keywordsQueries, [])
        let loopOut := runSearchQueries env deduped.1 s.allKeywords []
        let context :=
          if loopOut.ok then
            s.context ++ [{ step := stepNo, question := currentQuestion, action := action,
                            result := some (.searchResults loopOut.searchResults) }]
          else s.context
        { out := .next { totalTokens := totalTokens, context := context, step := stepNo, gaps := gaps,
                         allQuestions := s.allQuestions, allKeywords := loopOut.allKeywords,
                         badContext := s.badContext },
          calls := (.oracleCall prompt :: .rewriteCall sq :: deduped.2) ++ loopOut.calls, record := record }
    | none => plainNext
  else if action.action = "deep dive" then
    match action.URLTargets with
    | some urls =>
      if urls.length = 0 then plainNext
      else
        match readAll env urls with
        | .ok urlResults =>
          let context :=
            s.context ++ [{ step := stepNo, question := currentQuestion, action := action,
                            result := some (.urlResults urlResults) }]
          let totalTokens2 := totalTokens + (urlResults.map fun r => r.2.data.usage.tokens).sum
          { out := .next { totalTokens := totalTokens2, context := context, step := stepNo, gaps := gaps,
                           allQuestions := s.allQuestions, allKeywords := s.allKeywords,
                           badContext := s.badContext },
            calls := .oracleCall prompt :: urls.map CallEvent.readCall, record := record }
        | .error _ =>
          { out := .next { totalTokens := totalTokens, context := s.context, step := stepNo, gaps := gaps,
                           allQuestions := s.allQuestions, allKeywords := s.allKeywords,
                           badContext := s.badContext },
            calls := .oracleCall prompt :: urls.map CallEvent.readCall, record := record }
    | none => plainNext
  else plainNext

/-- How a whole run ends: an accepted (or forced-through) answer returned by
the loop, normal exit of the `while` once the budget condition fails (the
function then returns `undefined`: no answer), an uncaught exception, or the
fuel bound of the model reached. -/
inductive Outcome where
  | answered (a : ActionJson)
  | budgetExhausted
  | errored (e : String)
  | outOfFuel
deriving Repr, DecidableEq

/-- Result of a run: its outcome, the state at the last loop boundary, all
external calls made, and the per-step trace. -/
structure RunResult where
  outcome : Outcome
  finalState : AgentState
  calls : List CallEvent
  trace : List StepRecord
deriving Repr, DecidableEq

/-- The `while (totalTokens < tokenBudget)` loop of `getResponse`, with fuel
making the recursion structural. -/
def runLoop (env : Env) (question : String) (tokenBudget : Nat) :
    Nat → AgentState → List CallEvent → List StepRecord → RunResult
  | 0, s, calls, trace =>
    { outcome := .outOfFuel, finalState := s, calls := calls, trace := trace }
  | Nat.succ fuel, s, calls, trace =>
    if s.totalTokens < tokenBudget then
      let r := runStep env question s
      match r.out with
      | .done a =>
        { outcome := .answered a, finalState := s, calls := calls ++ r.calls, trace := trace ++ [r.record] }
      | .crashed e =>
        { outcome := .errored e, finalState := s, calls := calls ++ r.calls, trace := trace ++ [r.record] }
      | .next s2 => runLoop env question tokenBudget fuel s2 (calls ++ r.calls) (trace ++ [r.record])
    else
      { outcome := .budgetExhausted, finalState := s, calls := calls, trace := trace }

/-- Embedding of `getResponse(question, tokenBudget)` run from the initial
state. -/
def getResponse (env : Env) (question : String) (tokenBudget : Nat) (fuel : Nat) : RunResult :=
  runLoop env question tokenBudget fuel (initialState question) [] []

/-! ### Helper lemmas -/

theorem string_length_append (a b : String) : (a ++ b).length = a.length + b.length := by
  cases a; cases b
  simp [String.length, String.append]

/-- The per-step record of `runStep` is determined before the dispatch: it
always carries the incremented counter, the popped question, the queue
remainder, and the prompt and schema handed to the oracle. -/
theorem runStep_record (env : Env) (question : String) (s : AgentState) :
    (runStep env question s).record =
      { stepNo := s.step + 1, currentQuestion := (selectCurrent s.gaps question).1,
        gapsAfterPop := (selectCurrent s.gaps question).2, prompt := stepPrompt question s,
        schema := getSchema (allowReflectOf s.gaps) } := by
  simp only [runStep, stepPrompt]
  repeat' split
  all_goals rfl

/-- Queue invariant: the gap queue is empty or ends with the original
question (reflect always re-appends the original question last). -/
def GapsEndOk (question : String) (gaps : List String) : Prop :=
  gaps = [] ∨ ∃ pre, gaps = pre ++ [question]

/-- Liveness of one step record: the original question is the selected
question or still sits in the queue remainder. -/
def RecordLive (question : String) (r : StepRecord) : Prop :=
  r.currentQuestion = question ∨ question ∈ r.gapsAfterPop

theorem selectCurrent_live {question : String} {gaps : List String}
    (h : GapsEndOk question gaps) :
    (selectCurrent gaps question).1 = question ∨ question ∈ (selectCurrent gaps question).2 := by
  rcases h with h | ⟨pre, rfl⟩
  · subst h; exact Or.inl rfl
  · cases pre with
    | nil => exact Or.inl rfl
    | cons p ps => exact Or.inr (by simp [selectCurrent])

theorem selectCurrent_tail_endOk {question : String} {gaps : List String}
    (h : GapsEndOk question gaps) :
    GapsEndOk question (selectCurrent gaps question).2 := by
  rcases h with h | ⟨pre, rfl⟩
  · subst h; exact Or.inl rfl
  · cases pre with
    | nil => exact Or.inl rfl
    | cons p ps => exact Or.inr ⟨ps, rfl⟩

theorem gapsEndOk_append (question : String) (l mid : List String) :
    GapsEndOk question (l ++ mid ++ [question]) :=
  Or.inr ⟨l ++ mid, rfl⟩

/-- Any non-terminal step leaves a queue that is the remainder after the pop,
or (in the reflect branch) that remainder with fresh sub-questions and the
original question appended last; either way the invariant survives. -/
theorem runStep_next_endOk (env : Env) (question : String) (s : AgentState) (s2 : AgentState)
    (hinv : GapsEndOk question s.gaps) (h : (runStep env question s).out = .next s2) :
    GapsEndOk question s2.gaps := by
  have htail := selectCurrent_tail_endOk hinv
  simp only [runStep] at h
  repeat' split at h
  all_goals
    first
      | (injection h with h2; subst h2;
         first
           | exact htail
           | exact gapsEndOk_append _ _ _)
      | injection h

theorem runLoop_trace_live (env : Env) (question : String) (tokenBudget : Nat) :
    ∀ (fuel : Nat) (s : AgentState) (calls : List CallEvent) (trace : List StepRecord),
      GapsEndOk question s.gaps →
      (∀ r ∈ trace, RecordLive question r) →
      ∀ r ∈ (runLoop env question tokenBudget fuel s calls trace).trace, RecordLive question r := by
  intro fuel
  induction fuel with
  | zero =>
    intro s calls trace _ htrace
    simpa [runLoop] using htrace
  | succ fuel ih =>
    intro s calls trace hinv htrace
    simp only [runLoop]
    split
    · have hrec : RecordLive question (runStep env question s).record := by
        rw [runStep_record]
        exact selectCurrent_live hinv
      have htrace2 : ∀ r ∈ trace ++ [(runStep env question s).record], RecordLive question r := by
        intro r hr
        rcases List.mem_append.mp hr with hr | hr
        · exact htrace r hr
        · rw [List.mem_singleton.mp hr]; exact hrec
      split
      · intro r hr; exact htrace2 r hr
      · intro r hr; exact htrace2 r hr
      · rename_i s2 heq
        exact ih s2 _ _ (runStep_next_endOk env question s s2 hinv heq) htrace2
    · exact htrace

/-! ### Concrete environments for witnesses and counterexamples -/

/-- An answer action for the original question with an empty references
list, as in Scenario A of the spec. -/
def answerActionC1 : ActionJson :=
  { action := "answer", reasoning := "arithmetic", searchQuery := none, URLTargets := none,
    answer := some "2", references := some [], questionsToAnswer := none }

/-- Oracle immediately answers with empty references; evaluator says
definitive. -/
def envC1 : Env :=
  { decide := fun _ _ => (answerActionC1, 10),
    evaluateAnswer := fun _ _ => .ok true,
    dedupQueries := fun cands _ => cands,
    rewriteQuery := fun q => [q],
    search := fun _ => .ok [],
    readUrl := fun _ => .error "offline" }

/-- An answer action for the original question carrying a reference. -/
def answerActionC3 : ActionJson :=
  { action := "answer", reasoning := "direct", searchQuery := none, URLTargets := none,
    answer := some "A", references := some [{ title := "Arithmetic", url := "http://example.com" }],
    questionsToAnswer := none }

/-- Oracle answers; the evaluator call errors. -/
def envC3 : Env :=
  { decide := fun _ _ => (answerActionC3, 7),
    evaluateAnswer := fun _ _ => .error "evaluator unavailable",
    dedupQueries := fun cands _ => cands,
    rewriteQuery := fun q => [q],
    search := fun _ => .ok [],
    readUrl := fun _ => .error "offline" }

/-- Oracle answers; the evaluator rejects the answer. -/
def envC5 : Env :=
  { decide := fun _ _ => (answerActionC3, 5),
    evaluateAnswer := fun _ _ => .ok false,
    dedupQueries := fun cands _ => cands,
    rewriteQuery := fun q => [q],
    search := fun _ => .ok [],
    readUrl := fun _ => .error "offline" }

/-- A no-op action whose tag matches no dispatch branch. -/
def noopAction : ActionJson :=
  { action := "noop", reasoning := "", searchQuery := none, URLTargets := none,
    answer := none, references := none, questionsToAnswer := none }

/-- Oracle returns an action matching no branch: the loop just keeps going. -/
def envC6 : Env :=
  { decide := fun _ _ => (noopAction, 1),
    evaluateAnswer := fun _ _ => .ok false,
    dedupQueries := fun cands _ => cands,
    rewriteQuery := fun q => [q],
    search := fun _ => .ok [],
    readUrl := fun _ => .error "offline" }

/-- The step record produced by the single step of the `envC6` run. -/
def recC6 : StepRecord :=
  { stepNo := 1, currentQuestion := "q", gapsAfterPop := [],
    prompt := stepPrompt "q" (initialState "q"), schema := getSchema true }

/-- A reflect action proposing two sub-questions, as in Scenario C. -/
def reflectActionC8 : ActionJson :=
  { action := "reflect", reasoning := "gaps", searchQuery := none, URLTargets := none,
    answer := none, references := none, questionsToAnswer := some ["Q1", "Q2"] }

/-- Oracle reflects; deduplication keeps the questions not already known. -/
def envC8 : Env :=
  { decide := fun _ _ => (reflectActionC8, 3),
    evaluateAnswer := fun _ _ => .ok false,
    dedupQueries := fun cands known => cands.filter (fun c => !(known.contains c)),
    rewriteQuery := fun q => [q],
    search := fun _ => .ok [],
    readUrl := fun _ => .error "offline" }

/-- A deep-dive action over two URLs. -/
def deepDiveActionC9 : ActionJson :=
  { action := "deep dive", reasoning := "read", searchQuery := none,
    URLTargets := some ["https://a.example", "https://b.example"],
    answer := none, references := none, questionsToAnswer := none }

/-- Oracle deep-dives; the first URL reads fine, the second fetch fails. -/
def envC9 : Env :=
  { decide := fun _ _ => (deepDiveActionC9, 4),
    evaluateAnswer := fun _ _ => .ok false,
    dedupQueries := fun cands _ => cands,
    rewriteQuery := fun q => [q],
    search := fun _ => .ok [],
    readUrl := fun url =>
      if url = "https://a.example" then
        .ok { data := { content := "A content", usage := { tokens := 7 } } }
      else .error "fetch failed" }

/-! ### Claims -/

/-- C1: the claim says an accepted answer terminates the loop only if its
references list is non-empty, with an empty-references answer re-enqueued
instead.  The code has no such check (the README flowchart documents one):
with the oracle answering the original question with `references: []` and the
evaluator accepting, `getResponse` returns that answer and terminates. -/
theorem c1_terminates_despite_empty_references :
    (getResponse envC1 "1+1=" 30000000 1).outcome = Outcome.answered answerActionC1
      ∧ answerActionC1.references = some [] :=
  ⟨rfl, rfl⟩

/-- C2: the claim says an exhausted budget triggers one final forced
answer-generation call.  In the code the `while` guard simply fails: with a
budget ceiling of 0 the run terminates at once with no answer, no external
call of any kind, and an empty trace, for every environment. -/
theorem c2_zero_budget_makes_no_calls (env : Env) (question : String) (fuel : Nat) :
    getResponse env question 0 (fuel + 1) =
      { outcome := Outcome.budgetExhausted, finalState := initialState question,
        calls := [], trace := [] } := by
  simp [getResponse, runLoop, initialState]

/-- C3 (amended): if the evaluator call errors while judging an answer to the
original question, the step neither terminates successfully nor stores the
attempt: the exception propagates out of the loop (`StepOut.crashed`), so the
controller aborts instead of treating the failure as a rejection and
retrying. -/
theorem c3_evaluator_error_crashes_loop (env : Env) (question : String) (s : AgentState)
    (a : ActionJson) (tk : Nat) (e : String)
    (hdec : env.decide (stepPrompt question s) (getSchema (allowReflectOf s.gaps)) = (a, tk))
    (ha : a.action = "answer")
    (hcur : (selectCurrent s.gaps question).1 = question)
    (hev : env.evaluateAnswer question a.answer = Except.error e) :
    (runStep env question s).out = StepOut.crashed e := by
  simp only [stepPrompt] at hdec
  simp only [runStep]
  rw [hdec]
  simp [ha, hcur, hev]

/-- Witness for C3 at a concrete environment whose evaluator errors. -/
theorem c3_witness :
    (runStep envC3 "Q" (initialState "Q")).out = StepOut.crashed "evaluator unavailable" :=
  c3_evaluator_error_crashes_loop envC3 "Q" (initialState "Q") answerActionC3 7
    "evaluator unavailable" rfl rfl rfl rfl

/-- C3 counterexample: in the `envC3` run the evaluator failure ends the whole
run as an error after a single step — the attempt is not stored in the
bad-attempt log and the loop does not continue to retry (fuel remained). -/
theorem c3_counterexample :
    (getResponse envC3 "Q" 1000 3).outcome = Outcome.errored "evaluator unavailable"
      ∧ (getResponse envC3 "Q" 1000 3).finalState.badContext = []
      ∧ (getResponse envC3 "Q" 1000 3).trace.length = 1 :=
  ⟨rfl, rfl, rfl⟩

/-- C4: the claim says the oracle prompt includes the bad-attempt log.  The
call site passes only four arguments to `getPrompt`, so the prompt is
independent of the stored `badContext` (first part), even though passing the
log would strictly enlarge the prompt by the bad-context section (second
part). -/
theorem c4_prompt_ignores_bad_attempt_log :
    (∀ (question : String) (s : AgentState) (bc : List ContextEntry),
        stepPrompt question s = stepPrompt question { s with badContext := bc })
      ∧ (∀ (q : String) (c : List ContextEntry) (aq : List String) (ar : Bool)
            (e : ContextEntry) (bc : List ContextEntry),
          (getPrompt q c aq ar (some (e :: bc))).length > (getPrompt q c aq ar none).length) := by
  constructor
  · intro question s bc
    rfl
  · intro q c aq ar e bc
    have h0 : (badContextIntroOf (none : Option (List ContextEntry))).length = 0 := rfl
    have h2 : 0 < (badContextIntroOf (some (e :: bc))).length := by
      simp only [badContextIntroOf, List.length_cons]
      rw [if_neg (Nat.succ_ne_zero _)]
      rw [string_length_append, string_length_append]
      have hpos : 0 < ("Your last unsuccessful answer contains these previous actions and knowledge:\n    " : String).length := by decide
      omega
    simp only [getPrompt, string_length_append, h0]
    omega

/-- C5 (amended): on a rejected answer to the original question the whole
context log, the rejected entry last, is appended to the bad-attempt log and
the context log is cleared — but the original question is not re-enqueued:
the queue stays exactly the remainder of the pop, and selection only comes
back to the original question through the empty-queue fallback. -/
theorem c5_rejection_migrates_context_without_reenqueue (env : Env) (question : String)
    (s : AgentState) (a : ActionJson) (tk : Nat)
    (hdec : env.decide (stepPrompt question s) (getSchema (allowReflectOf s.gaps)) = (a, tk))
    (ha : a.action = "answer")
    (hcur : (selectCurrent s.gaps question).1 = question)
    (hev : env.evaluateAnswer question a.answer = Except.ok false) :
    (runStep env question s).out = StepOut.next
      { totalTokens := s.totalTokens + tk, context := [], step := s.step + 1,
        gaps := (selectCurrent s.gaps question).2, allQuestions := s.allQuestions,
        allKeywords := s.allKeywords,
        badContext := s.badContext ++
          (s.context ++ [{ step := s.step + 1, question := question, action := a, result := none }]) } := by
  simp only [stepPrompt] at hdec
  simp only [runStep]
  rw [hdec]
  simp [ha, hcur, hev]

/-- Witness for C5 at a concrete environment whose evaluator rejects. -/
theorem c5_witness :
    (runStep envC5 "Q" (initialState "Q")).out = StepOut.next
      { totalTokens := 5, context := [], step := 1, gaps := [], allQuestions := ["Q"],
        allKeywords := [],
        badContext := [{ step := 1, question := "Q", action := answerActionC3, result := none }] } :=
  c5_rejection_migrates_context_without_reenqueue envC5 "Q" (initialState "Q")
    answerActionC3 5 rfl rfl rfl rfl

/-- C5 counterexample: after the rejection step of the `envC5` run the gap
queue is empty — the original question was not re-enqueued (the migration
and clearing parts of the claim do hold, as the state shows). -/
theorem c5_counterexample :
    (runStep envC5 "Q" (initialState "Q")).out = StepOut.next
      { totalTokens := 5, context := [], step := 1, gaps := ([] : List String),
        allQuestions := ["Q"], allKeywords := [],
        badContext := [{ step := 1, question := "Q", action := answerActionC3, result := none }] } :=
  rfl

/-- C6: at every step of every run, the original question is the selected
question of that step or still present in the queue remainder after the
pop. -/
theorem c6_original_question_live (env : Env) (question : String) (tokenBudget fuel : Nat) :
    ∀ r ∈ (getResponse env question tokenBudget fuel).trace,
      r.currentQuestion = question ∨ question ∈ r.gapsAfterPop := by
  intro r hr
  exact runLoop_trace_live env question tokenBudget fuel (initialState question) [] []
    (Or.inr ⟨[], rfl⟩) (by intro r hr; cases hr) r hr

/-- Witness for C6 on a one-step concrete run. -/
theorem c6_witness : recC6.currentQuestion = "q" ∨ "q" ∈ recC6.gapsAfterPop :=
  c6_original_question_live envC6 "q" 100 1 recC6 (by
    rw [show (getResponse envC6 "q" 100 1).trace = [recC6] from rfl]
    exact List.mem_singleton.mpr rfl)

/-- C7: reflecting is offered iff the queue holds at most one question before
the pop (`allowReflect = gaps.length <= 1`), the schema the step hands to the
oracle is `getSchema allowReflect`, and with `allowReflect` false that schema
omits the `reflect` tag and the `questionsToAnswer` field. -/
theorem c7_reflect_gating :
    (∀ gaps : List String, allowReflectOf gaps = true ↔ gaps.length ≤ 1)
      ∧ (∀ (env : Env) (question : String) (s : AgentState),
          (runStep env question s).record.schema = getSchema (allowReflectOf s.gaps))
      ∧ (getSchema false).actionEnum = ["search", "deep dive", "answer"]
      ∧ (getSchema false).questionsToAnswer = none
      ∧ (getSchema true).actionEnum = ["search", "deep dive", "answer", "reflect"]
      ∧ (getSchema true).questionsToAnswer.isSome = true := by
  refine ⟨?_, ?_, rfl, rfl, rfl, rfl⟩
  · intro gaps
    simp [allowReflectOf]
  · intro env question s
    rw [runStep_record]

/-- C8: a reflect action with questions appends the dedup survivors, in
order, to both the gap queue and the question registry, and then re-appends
the original question to the gap queue after them. -/
theorem c8_reflect_appends_deduped_then_original (env : Env) (question : String)
    (s : AgentState) (a : ActionJson) (tk : Nat) (qs : List String)
    (hdec : env.decide (stepPrompt question s) (getSchema (allowReflectOf s.gaps)) = (a, tk))
    (ha : a.action = "reflect")
    (hqs : a.questionsToAnswer = some qs)
    (hne : s.allQuestions ≠ []) :
    (runStep env question s).out = StepOut.next
      { totalTokens := s.totalTokens + tk, context := s.context, step := s.step + 1,
        gaps := (selectCurrent s.gaps question).2 ++ env.dedupQueries qs s.allQuestions ++ [question],
        allQuestions := s.allQuestions ++ env.dedupQueries qs s.allQuestions,
        allKeywords := s.allKeywords, badContext := s.badContext } := by
  simp only [stepPrompt] at hdec
  simp only [runStep]
  rw [hdec]
  simp [ha, hqs, List.length_eq_zero, hne]

/-- Witness for C8: from the initial state, reflecting with two novel
questions queues them and the original question after them. -/
theorem c8_witness :
    (runStep envC8 "orig" (initialState "orig")).out = StepOut.next
      { totalTokens := 3, context := [], step := 1, gaps := ["Q1", "Q2", "orig"],
        allQuestions := ["orig", "Q1", "Q2"], allKeywords := [], badContext := [] } :=
  c8_reflect_appends_deduped_then_original envC8 "orig" (initialState "orig")
    reflectActionC8 3 ["Q1", "Q2"] rfl rfl rfl (by simp [initialState])

/-- C9 (amended): when any URL of a deep-dive batch fails to read, the whole
batch is dropped — `Promise.all` rejects, the surrounding catch swallows the
error, no context entry at all is recorded (successful sub-results are
discarded, no failed sub-result is kept), and the loop continues. -/
theorem c9_url_failure_drops_batch (env : Env) (question : String) (s : AgentState)
    (a : ActionJson) (tk : Nat) (urls : List String) (e : String)
    (hdec : env.decide (stepPrompt question s) (getSchema (allowReflectOf s.gaps)) = (a, tk))
    (ha : a.action = "deep dive")
    (hurls : a.URLTargets = some urls)
    (hne : urls ≠ [])
    (hread : readAll env urls = Except.error e) :
    (runStep env question s).out = StepOut.next
      { totalTokens := s.totalTokens + tk, context := s.context, step := s.step + 1,
        gaps := (selectCurrent s.gaps question).2, allQuestions := s.allQuestions,
        allKeywords := s.allKeywords, badContext := s.badContext } := by
  simp only [stepPrompt] at hdec
  simp only [runStep]
  rw [hdec]
  simp [ha, hurls, hread, List.length_eq_zero, hne]

/-- Witness for C9 on the two-URL batch with one failing fetch. -/
theorem c9_witness :
    (runStep envC9 "Q" (initialState "Q")).out = StepOut.next
      { totalTokens := 4, context := [], step := 1, gaps := [], allQuestions := ["Q"],
        allKeywords := [], badContext := [] } :=
  c9_url_failure_drops_batch envC9 "Q" (initialState "Q") deepDiveActionC9 4
    ["https://a.example", "https://b.example"] "fetch failed" rfl rfl rfl (by decide) rfl

/-- C9 counterexample: in the `envC9` step the first URL read succeeded and
the second failed, yet the resulting context log is empty — the result of
the other URL was not recorded and no failed sub-result was recorded. -/
theorem c9_counterexample :
    (runStep envC9 "Q" (initialState "Q")).out = StepOut.next
      { totalTokens := 4, context := ([] : List ContextEntry), step := 1, gaps := [],
        allQuestions := ["Q"], allKeywords := [], badContext := [] } :=
  rfl

/-- C10: a reflect step appends nothing to the context log: whatever state a
reflect action leads to carries the context log unchanged. -/
theorem c10_reflect_leaves_context_unchanged (env : Env) (question : String) (s : AgentState)
    (a : ActionJson) (tk : Nat)
    (hdec : env.decide (stepPrompt question s) (getSchema (allowReflectOf s.gaps)) = (a, tk))
    (ha : a.action = "reflect") :
    ∀ s2, (runStep env question s).out = StepOut.next s2 → s2.context = s.context := by
  intro s2 h
  simp only [stepPrompt] at hdec
  simp only [runStep] at h
  rw [hdec] at h
  simp [ha] at h
  repeat' split at h
  all_goals (injection h with h2; subst h2; rfl)

/-- Witness for C10 on the concrete reflect step of `envC8`. -/
theorem c10_witness :
    ({ totalTokens := 3, context := [], step := 1, gaps := ["Q1", "Q2", "orig"],
       allQuestions := ["orig", "Q1", "Q2"], allKeywords := [], badContext := [] } : AgentState).context
      = (initialState "orig").context :=
  c10_reflect_leaves_context_unchanged envC8 "orig" (initialState "orig")
    reflectActionC8 3 rfl rfl _ rfl

end DeepResearch
